import Mathlib

/-!
# Shallow embedding of `darts/models/regression_ensemble_model.py`

`RegressionEnsembleModel` orchestrates a stacking ensemble: it splits the
training series into a forecast-training prefix and a regression-target
suffix, fits every member model on the prefix, has each member predict the
held-out horizon, fits a regression adapter on those predictions, and
finally resets and refits every member model on the full series.

Time series are embedded as Lean lists; Python's negative-index slicing
(`ts[:-n]`, `ts[-n:]`) is modelled explicitly.  The member forecasting
models and the regression adapter are external collaborators: their
observable interaction with the orchestrator (which fit/predict calls they
receive, with which arguments) is recorded in explicit call records.
-/

set_option autoImplicit false

namespace DartsRegressionEnsemble

variable {α π φ : Type}

/-- Python slice `xs[:i]` for an arbitrary (possibly negative) integer
index `i`: a nonnegative stop index takes the first `i` elements (clamped),
a negative one stops `-i` elements before the end (clamped at 0). -/
def pySliceUpto (xs : List α) (i : Int) : List α :=
  if 0 ≤ i then xs.take i.toNat else xs.take ((xs.length : Int) + i).toNat

/-- Python slice `xs[i:]` for an arbitrary (possibly negative) integer
index `i`: a nonnegative start index drops the first `i` elements (clamped),
a negative one starts `-i` elements before the end (clamped at 0). -/
def pySliceFrom (xs : List α) (i : Int) : List α :=
  if 0 ≤ i then xs.drop i.toNat else xs.drop ((xs.length : Int) + i).toNat

/-- The two-way calibration slice used in `fit` for a single series:
`(ts[:-n], ts[-n:])`. -/
def calibration_split (n : Int) (ts : List α) : List α × List α :=
  (pySliceUpto ts (-n), pySliceFrom ts (-n))

/-- `RegressionEnsembleModel._split_multi_ts_sequence`: element-wise
`([ts[:-n] for ts], [ts[-n:] for ts])`. -/
def split_multi_ts_sequence (n : Int) (ts_sequence : List (List α)) :
    List (List α) × List (List α) :=
  (ts_sequence.map fun ts => pySliceUpto ts (-n),
   ts_sequence.map fun ts => pySliceFrom ts (-n))

/-- Lag configuration of a darts `RegressionModel` adapter, as read by the
constructor's validation: `lags`, `lags_past_covariates`,
`lags_historical_covariates` and `lags_future_covariates` attributes
(`none` embeds Python `None`). -/
structure RegressionModelCfg where
  lags : Option (List Int)
  lags_past_covariates : Option (List Int)
  lags_historical_covariates : Option (List Int)
  lags_future_covariates : Option (List Int)
deriving DecidableEq, Repr

/-- Modelled from the spec (the `LinearRegressionModel` constructor is not
under `src/`): the default adapter
`LinearRegressionModel(lags=None, lags_future_covariates=[0],
fit_intercept=False)` has no target lags, no past/historical-covariate
lags and future-covariate lag `[0]` only. -/
def defaultRegressionModel : RegressionModelCfg :=
  { lags := none
    lags_past_covariates := none
    lags_historical_covariates := none
    lags_future_covariates := some [0] }

/-- Modelled from the spec: the default adapter is built with no intercept
term (`fit_intercept=False`). -/
def defaultRegressionModelFitIntercept : Bool := false

/-- Modelled from the spec (the `RegressionModel` constructor is not under
`src/`): wrapping a raw scikit-learn-like predictor via
`RegressionModel(lags_future_covariates=[0], model=regression_model)`
yields an adapter with future-covariate lag `[0]` and no target, past or
historical lags. -/
def wrappedRawRegressionModel : RegressionModelCfg :=
  { lags := none
    lags_past_covariates := none
    lags_historical_covariates := none
    lags_future_covariates := some [0] }

/-- The `regression_model` argument of the constructor: absent (Python
`None`), a darts `RegressionModel` adapter, or a raw scikit-learn-like
predictor. -/
inductive RegressionModelArg where
  | default
  | adapter (cfg : RegressionModelCfg)
  | raw
deriving DecidableEq, Repr

/-- The `if regression_model is None / isinstance(..., RegressionModel) /
else` resolution at the top of `RegressionEnsembleModel.__init__`. -/
def resolveRegressionModel : RegressionModelArg → RegressionModelCfg
  | .default => defaultRegressionModel
  | .adapter cfg => cfg
  | .raw => wrappedRawRegressionModel

/-- The exact condition of the `raise_if` in
`RegressionEnsembleModel.__init__`: the four lag checks are joined with
`and`, so the error fires only when `lags`, `lags_historical_covariates`
and `lags_past_covariates` are all set AND `lags_future_covariates` differs
from `[0]`. -/
def initLagsRaiseCondition (m : RegressionModelCfg) : Bool :=
  m.lags.isSome && m.lags_historical_covariates.isSome &&
    m.lags_past_covariates.isSome && decide (m.lags_future_covariates ≠ some [0])

/-- A series argument as passed around by the orchestrator: one series or a
sequence of series. -/
inductive SeriesArg (α : Type) where
  | single (ts : List α)
  | multi (tss : List (List α))
deriving DecidableEq, Repr

/-- `isinstance(series, TimeSeries)`: whether the argument is one series.
Modelled from the spec: the base ensemble `fit` records this as
`self.is_single_series`. -/
def SeriesArg.isSingle : SeriesArg α → Bool
  | .single _ => true
  | .multi _ => false

/-- One `model.fit(...)` call received by a member model: the series
argument and, for each covariate kind, whether the keyword was passed at
all (outer `Option`) and the Python value passed (inner `Option`, `none`
embedding `None`). -/
structure MemberFitCall (α π φ : Type) where
  series : SeriesArg α
  past_arg : Option (Option π)
  future_arg : Option (Option φ)
deriving DecidableEq, Repr

/-- One `model.predict(...)` call received by a member model: the horizon
`n` and the optionally-passed `series`, `past_covariates` and
`future_covariates` keywords. -/
structure MemberPredictCall (α π φ : Type) where
  n : Int
  series : Option (SeriesArg α)
  past_arg : Option (Option π)
  future_arg : Option (Option φ)
deriving DecidableEq, Repr

/-- A member forecasting model, as observed by the orchestrator: its
covariate-consumption flags, whether it exposes `untrained_model` (the
reset operation), and its training state (the fit call it is currently
trained on, `none` when untrained). -/
structure MemberModel (α π φ : Type) where
  uses_past_covariates : Bool
  uses_future_covariates : Bool
  has_untrained_model : Bool
  trained_on : Option (MemberFitCall α π φ)
deriving DecidableEq, Repr

/-- `model.fit(c)`: the model becomes trained on the call `c`. -/
def MemberModel.fitOn (m : MemberModel α π φ) (c : MemberFitCall α π φ) :
    MemberModel α π φ :=
  { m with trained_on := some c }

/-- `model.untrained_model()`: a fresh untrained copy of the model. -/
def MemberModel.untrained_model (m : MemberModel α π φ) : MemberModel α π φ :=
  { m with trained_on := none }

/-- The state of a `RegressionEnsembleModel`: the member models, the
resolved regression adapter configuration, the calibration horizon
`train_n_points`, and the base class's `is_global_ensemble` flag. -/
structure RegressionEnsembleModel (α π φ : Type) where
  models : List (MemberModel α π φ)
  regression_model : RegressionModelCfg
  train_n_points : Int
  is_global_ensemble : Bool
deriving DecidableEq, Repr

/-- `RegressionEnsembleModel.__init__`: resolve the regression adapter
(default, supplied adapter, or auto-wrapped raw predictor), run the lag
validation `raise_if`, and store the adapter and the calibration horizon.
`is_global` is the `is_global_ensemble` flag the external base ensemble
abstraction derives from the member models. -/
def RegressionEnsembleModel.init (forecasting_models : List (MemberModel α π φ))
    (is_global : Bool) (regression_train_n_points : Int)
    (regression_model : RegressionModelArg := .default) :
    Except String (RegressionEnsembleModel α π φ) :=
  let rm := resolveRegressionModel regression_model
  if initLagsRaiseCondition rm then
    Except.error "lags, lags_historical_covariates and lags_past_covariates of regression model must be None and lags_future_covariates must be [0]"
  else
    Except.ok
      { models := forecasting_models
        regression_model := rm
        train_n_points := regression_train_n_points
        is_global_ensemble := is_global }

/-- The `train_n_points_too_big` guard in `fit`: for a single series,
`len(self.training_series) <= self.train_n_points` (the base `fit` records
the single input series as `training_series`); for a sequence,
`any([len(s) <= self.train_n_points for s in series])`. -/
def trainNPointsTooBig (train_n_points : Int) : SeriesArg α → Bool
  | .single ts => decide ((ts.length : Int) ≤ train_n_points)
  | .multi tss => tss.any fun s => decide ((s.length : Int) ≤ train_n_points)

/-- The `forecast_training` value computed in `fit`: the single-series
slice `training_series[:-train_n_points]`, or the left half of
`_split_multi_ts_sequence`. -/
def forecastTrainingOf (train_n_points : Int) : SeriesArg α → SeriesArg α
  | .single ts => .single (calibration_split train_n_points ts).1
  | .multi tss => .multi (split_multi_ts_sequence train_n_points tss).1

/-- The `regression_target` value computed in `fit`: the single-series
slice `training_series[-train_n_points:]`, or the right half of
`_split_multi_ts_sequence`. -/
def regressionTargetOf (train_n_points : Int) : SeriesArg α → SeriesArg α
  | .single ts => .single (calibration_split train_n_points ts).2
  | .multi tss => .multi (split_multi_ts_sequence train_n_points tss).2

/-- The member-model fit call built by both fitting loops in `fit`: for a
global ensemble, `kwargs = dict(series=s_global)` extended with
`past_covariates` iff `model.uses_past_covariates` and with
`future_covariates` iff `model.uses_future_covariates`; for a local
ensemble, a bare positional call `model.fit(s_local)`.  Phase 1 passes the
truncated `forecast_training` for both; phase 2 passes the raw `series`
argument (global) or `self.training_series` (local). -/
def routedFitCall (is_global : Bool) (s_global s_local : SeriesArg α)
    (past : Option π) (future : Option φ) (m : MemberModel α π φ) :
    MemberFitCall α π φ :=
  if is_global then
    { series := s_global
      past_arg := if m.uses_past_covariates then some past else none
      future_arg := if m.uses_future_covariates then some future else none }
  else
    { series := s_local, past_arg := none, future_arg := none }

/-- The call built by `get_prediction` in `fit`: when the ensemble is
global and the run is multi-series, `model.predict(n=train_n_points,
series=forecast_training, past_covariates=..., future_covariates=...)`
with both covariate keywords passed unconditionally; otherwise the bare
`model.predict(train_n_points)`. -/
def getPredictionCall (is_global is_single : Bool) (train_n_points : Int)
    (forecast_training : SeriesArg α) (past : Option π) (future : Option φ) :
    MemberPredictCall α π φ :=
  if is_global && !is_single then
    { n := train_n_points
      series := some forecast_training
      past_arg := some past
      future_arg := some future }
  else
    { n := train_n_points, series := none, past_arg := none, future_arg := none }

/-- The observable outcome of a successful `fit` call: the computed
calibration split, the fit calls issued to the member models during
phase 1 (calibration) and phase 2 (full-data refit), the predict calls of
the calibration-prediction step, and the member-model list as it evolves
(after phase 1, after the optional `untrained_model` reset, and after the
final refit). -/
structure FitOutcome (α π φ : Type) where
  forecast_training : SeriesArg α
  regression_target : SeriesArg α
  phase1_fit_calls : List (MemberFitCall α π φ)
  predict_calls : List (MemberPredictCall α π φ)
  models_phase1 : List (MemberModel α π φ)
  models_reset : List (MemberModel α π φ)
  phase2_fit_calls : List (MemberFitCall α π φ)
  models_after : List (MemberModel α π φ)
deriving DecidableEq, Repr

/-- The body of `RegressionEnsembleModel.fit` after the
`train_n_points_too_big` guard has passed, returning the updated model
state and the record of the calls issued.  It follows the source line by
line: split, phase-1 fitting loop, `get_prediction` loop over the (now
fitted) models, reset via `untrained_model` when available, phase-2
refitting loop on the full series. -/
def fitSuccess (self : RegressionEnsembleModel α π φ) (series : SeriesArg α)
    (past_covariates : Option π) (future_covariates : Option φ) :
    RegressionEnsembleModel α π φ × FitOutcome α π φ :=
  let is_single_series := series.isSingle
  let ft := forecastTrainingOf self.train_n_points series
  let phase1_calls := self.models.map
    (routedFitCall self.is_global_ensemble ft ft past_covariates future_covariates)
  let models_phase1 := List.zipWith MemberModel.fitOn self.models phase1_calls
  let predict_calls := models_phase1.map fun _ =>
    getPredictionCall self.is_global_ensemble is_single_series self.train_n_points
      ft past_covariates future_covariates
  let models_reset := models_phase1.map fun m =>
    if m.has_untrained_model then m.untrained_model else m
  let phase2_calls := models_reset.map
    (routedFitCall self.is_global_ensemble series series past_covariates future_covariates)
  let models_after := List.zipWith MemberModel.fitOn models_reset phase2_calls
  ({ self with models := models_after },
   { forecast_training := ft
     regression_target := regressionTargetOf self.train_n_points series
     phase1_fit_calls := phase1_calls
     predict_calls := predict_calls
     models_phase1 := models_phase1
     models_reset := models_reset
     phase2_fit_calls := phase2_calls
     models_after := models_after })

/-- `RegressionEnsembleModel.fit`: after the base class's bookkeeping
(recording `is_single_series` and `training_series`, both derived here
from the `series` argument), `raise_if` the calibration horizon is not
strictly smaller than every training series, then run the two-phase
training protocol. -/
def RegressionEnsembleModel.fit (self : RegressionEnsembleModel α π φ)
    (series : SeriesArg α) (past_covariates : Option π := none)
    (future_covariates : Option φ := none) :
    Except String (RegressionEnsembleModel α π φ × FitOutcome α π φ) :=
  if trainNPointsTooBig self.train_n_points series then
    Except.error "regression_train_n_points parameter too big (must be smaller or equal to the number of points in training_series)"
  else
    Except.ok (fitSuccess self series past_covariates future_covariates)

/-- `RegressionEnsembleModel.ensemble`, single-series branch:
`self.regression_model.predict(n=len(predictions),
future_covariates=predictions)`.  The regression adapter's `predict` is
the external collaborator `regPredict (n) (series?) (future_covariates)`. -/
def ensembleSingle {β γ : Type} (regPredict : Nat → Option (List α) → List β → List γ)
    (predictions : List β) : List γ :=
  regPredict predictions.length none predictions

/-- `RegressionEnsembleModel.ensemble`, multi-series branch:
`[self.regression_model.predict(n=len(prediction), series=serie,
future_covariates=prediction) for serie, prediction in
zip(series, predictions)]`. -/
def ensembleMulti {β γ : Type} (regPredict : Nat → Option (List α) → List β → List γ)
    (predictions : List (List β)) (series : List (List α)) : List (List γ) :=
  (series.zip predictions).map fun sp => regPredict sp.2.length (some sp.1) sp.2

/-! ## Helper lemmas -/

/-- Inversion for `fit`: a successful result means the size guard passed
and the result is exactly the two-phase protocol's outcome. -/
theorem fit_ok_iff (self : RegressionEnsembleModel α π φ) (series : SeriesArg α)
    (past : Option π) (future : Option φ)
    (r : RegressionEnsembleModel α π φ × FitOutcome α π φ) :
    self.fit series past future = Except.ok r ↔
      trainNPointsTooBig self.train_n_points series = false ∧
        r = fitSuccess self series past future := by
  unfold RegressionEnsembleModel.fit
  cases h : trainNPointsTooBig self.train_n_points series <;> simp [eq_comm]

/-! ## Claims -/

/-- C1: the spec demands a `ConfigurationError` whenever any single lag
field of a supplied adapter violates the invariant (target, past and
historical lags unset; future-covariate lags exactly `[0]`).  The source's
`raise_if` joins the four conditions with `and`, so a single violation
never fires it: an adapter whose future-covariate lags are `[1]` (with all
other lag fields unset) is accepted, although the guard's own error
message says `lags_future_covariates` must be `[0]`. -/
theorem init_accepts_adapter_with_single_lag_violation :
    ({ lags := none, lags_past_covariates := none,
       lags_historical_covariates := none,
       lags_future_covariates := some [1] } : RegressionModelCfg).lags_future_covariates
        ≠ some [0] ∧
    (RegressionEnsembleModel.init ([] : List (MemberModel Int Nat Nat)) true 5
        (.adapter { lags := none, lags_past_covariates := none,
                    lags_historical_covariates := none,
                    lags_future_covariates := some [1] })).isOk = true := by
  decide

/-- C4 counterexample: the claim quantifies over every horizon `h`
strictly smaller than the series length, but at `h = 0` (and `L = 2`) the
prefix of the calibration split is empty (Python `ts[:-0] = ts[:0] = []`)
instead of having the claimed length `L − h = 2`. -/
theorem calibration_split_prefix_empty_at_zero_horizon :
    (calibration_split 0 [(1 : Int), 2]).1.length ≠ 2 - 0 := by
  decide

/-- C4 (amended to a positive horizon): for `0 < n < L` the calibration
split is lossless and non-overlapping — the prefix has length `L − n`, the
suffix has length `n`, and their concatenation reproduces the series — and
`_split_multi_ts_sequence` applies this split element-wise, preserving
list order and length. -/
theorem calibration_split_lossless (n : Int) (ts : List α) (tss : List (List α))
    (hn : 0 < n) (hts : n < (ts.length : Int)) :
    ((calibration_split n ts).1.length : Int) = (ts.length : Int) - n ∧
    ((calibration_split n ts).2.length : Int) = n ∧
    (calibration_split n ts).1 ++ (calibration_split n ts).2 = ts ∧
    (split_multi_ts_sequence n tss).1.length = tss.length ∧
    (split_multi_ts_sequence n tss).2.length = tss.length ∧
    ∀ i : Nat,
      (split_multi_ts_sequence n tss).1[i]?
          = Option.map (fun s => (calibration_split n s).1) tss[i]? ∧
      (split_multi_ts_sequence n tss).2[i]?
          = Option.map (fun s => (calibration_split n s).2) tss[i]? := by
  have hneg : ¬ (0 : Int) ≤ -n := by omega
  refine ⟨?_, ?_, ?_, ?_, ?_, ?_⟩
  · simp only [calibration_split, pySliceUpto, if_neg hneg, List.length_take]
    omega
  · simp only [calibration_split, pySliceFrom, if_neg hneg, List.length_drop]
    omega
  · simp only [calibration_split, pySliceUpto, pySliceFrom, if_neg hneg]
    exact List.take_append_drop _ ts
  · simp [split_multi_ts_sequence]
  · simp [split_multi_ts_sequence]
  · intro i
    constructor <;>
      simp [split_multi_ts_sequence, calibration_split, List.getElem?_map]

/-- Witness for C4's amended theorem at `n = 1`, `ts = [3, 4]`,
`tss = [[5, 6], [7, 8, 9]]`. -/
theorem calibration_split_lossless_witness :
    ((0 : Int) < 1 ∧ (1 : Int) < (([3, 4] : List Int).length : Int)) ∧
    (((calibration_split 1 [(3 : Int), 4]).1.length : Int) = 1 ∧
     ((calibration_split 1 [(3 : Int), 4]).2.length : Int) = 1 ∧
     (calibration_split 1 [(3 : Int), 4]).1 ++ (calibration_split 1 [(3 : Int), 4]).2
        = [3, 4] ∧
     (split_multi_ts_sequence 1 [[(5 : Int), 6], [7, 8, 9]]).1.length = 2 ∧
     (split_multi_ts_sequence 1 [[(5 : Int), 6], [7, 8, 9]]).2.length = 2 ∧
     ∀ i : Nat,
       (split_multi_ts_sequence 1 [[(5 : Int), 6], [7, 8, 9]]).1[i]?
           = Option.map (fun s => (calibration_split 1 s).1) [[(5 : Int), 6], [7, 8, 9]][i]? ∧
       (split_multi_ts_sequence 1 [[(5 : Int), 6], [7, 8, 9]]).2[i]?
           = Option.map (fun s => (calibration_split 1 s).2) [[(5 : Int), 6], [7, 8, 9]][i]?) :=
  ⟨⟨by decide, by decide⟩,
   calibration_split_lossless 1 [(3 : Int), 4] [[(5 : Int), 6], [7, 8, 9]]
     (by decide) (by decide)⟩

/-- C3: `fit` raises its `ConfigurationError` if and only if the
calibration horizon is not strictly smaller than the series length — for a
single series when `train_n_points ≥ len(series)`, for a sequence when
some member series `s` has `len(s) ≤ train_n_points`; otherwise `fit`
proceeds past the check and returns successfully. -/
theorem fit_configuration_error_iff (self : RegressionEnsembleModel α π φ)
    (series : SeriesArg α) (past : Option π) (future : Option φ) :
    (self.fit series past future).isOk = false ↔
      (match series with
       | .single ts => (ts.length : Int) ≤ self.train_n_points
       | .multi tss => ∃ s ∈ tss, (s.length : Int) ≤ self.train_n_points) := by
  unfold RegressionEnsembleModel.fit
  cases series with
  | single ts =>
    by_cases h : (ts.length : Int) ≤ self.train_n_points <;>
      simp [trainNPointsTooBig, h, Except.isOk, Except.toBool]
  | multi tss =>
    by_cases h : ∃ s ∈ tss, (s.length : Int) ≤ self.train_n_points <;>
      simp [trainNPointsTooBig, List.any_eq_true, h, Except.isOk, Except.toBool]

/-- C8: the default regression adapter is a linear-regression adapter with
no target lags, no past/historical-covariate lags, future-covariate lags
exactly `[0]` and no intercept term; a raw point-regression predictor is
auto-wrapped into an adapter with the same lag configuration, and the
wrapped adapter passes the construction-time lag check. -/
theorem default_and_wrapped_adapter_configuration :
    resolveRegressionModel .default = defaultRegressionModel ∧
    defaultRegressionModel.lags = none ∧
    defaultRegressionModel.lags_past_covariates = none ∧
    defaultRegressionModel.lags_historical_covariates = none ∧
    defaultRegressionModel.lags_future_covariates = some [0] ∧
    defaultRegressionModelFitIntercept = false ∧
    resolveRegressionModel .raw = wrappedRawRegressionModel ∧
    wrappedRawRegressionModel.lags = none ∧
    wrappedRawRegressionModel.lags_past_covariates = none ∧
    wrappedRawRegressionModel.lags_historical_covariates = none ∧
    wrappedRawRegressionModel.lags_future_covariates = some [0] ∧
    initLagsRaiseCondition wrappedRawRegressionModel = false ∧
    (RegressionEnsembleModel.init ([] : List (MemberModel Int Nat Nat)) true 5
        .raw).isOk = true := by
  decide

/-- C9: the size guard only rejects `len(s) ≤ train_n_points`, so a zero
(or negative) calibration horizon passes the check for every non-empty
training series; at horizon `0` the split then produces an empty
forecast-training prefix and a regression target equal to the whole
series, so the documented `L − h` / `h` shape fails at `h = 0`. -/
theorem fit_accepts_nonpositive_horizon (self : RegressionEnsembleModel α π φ)
    (ts : List α) (past : Option π) (future : Option φ)
    (hn : self.train_n_points ≤ 0) (hts : ts ≠ []) :
    (self.fit (.single ts) past future).isOk = true ∧
    (self.train_n_points = 0 →
      self.fit (.single ts) past future
        = Except.ok (fitSuccess self (.single ts) past future) ∧
      (fitSuccess self (.single ts) past future).2.forecast_training
        = .single ([] : List α) ∧
      (fitSuccess self (.single ts) past future).2.regression_target = .single ts ∧
      ts.length ≠ 0) := by
  have hlen : ts.length ≠ 0 := by
    simpa [List.length_eq_zero] using hts
  have hguard : trainNPointsTooBig self.train_n_points (.single ts) = false := by
    simp only [trainNPointsTooBig, decide_eq_false_iff_not]
    omega
  constructor
  · unfold RegressionEnsembleModel.fit
    simp [hguard, Except.isOk, Except.toBool]
  · intro h0
    refine ⟨?_, ?_, ?_, hlen⟩
    · unfold RegressionEnsembleModel.fit
      simp [hguard]
    · simp [fitSuccess, forecastTrainingOf, calibration_split, pySliceUpto, h0]
    · simp [fitSuccess, regressionTargetOf, calibration_split, pySliceFrom, h0]

/-- Ensemble used by the witness of C9: zero calibration horizon. -/
def c9Ensemble : RegressionEnsembleModel Int Nat Nat :=
  { models := []
    regression_model := defaultRegressionModel
    train_n_points := 0
    is_global_ensemble := false }

/-- Witness for C9 at horizon `0` and series `[7]`. -/
theorem fit_accepts_nonpositive_horizon_witness :
    (c9Ensemble.train_n_points ≤ 0 ∧ ([(7 : Int)] : List Int) ≠ []) ∧
    ((c9Ensemble.fit (.single [7]) none none).isOk = true ∧
     (c9Ensemble.train_n_points = 0 →
       c9Ensemble.fit (.single [7]) none none
         = Except.ok (fitSuccess c9Ensemble (.single [7]) none none) ∧
       (fitSuccess c9Ensemble (.single [(7 : Int)]) none none).2.forecast_training
         = .single ([] : List Int) ∧
       (fitSuccess c9Ensemble (.single [(7 : Int)]) none none).2.regression_target
         = .single [7] ∧
       ([(7 : Int)] : List Int).length ≠ 0)) :=
  ⟨⟨by decide, by decide⟩,
   fit_accepts_nonpositive_horizon c9Ensemble [7] none none (by decide) (by decide)⟩

/-- A member model that consumes neither covariate kind, for the C2
counterexample. -/
def c2Model : MemberModel Int Nat Nat :=
  { uses_past_covariates := false
    uses_future_covariates := false
    has_untrained_model := false
    trained_on := none }

/-- A global ensemble over `c2Model` with calibration horizon 1. -/
def c2Ensemble : RegressionEnsembleModel Int Nat Nat :=
  { models := [c2Model]
    regression_model := defaultRegressionModel
    train_n_points := 1
    is_global_ensemble := true }

/-- C2 counterexample: in a global multi-series run, `get_prediction`
passes `past_covariates` and `future_covariates` to `model.predict`
unconditionally.  Here the sole member model declares that it consumes
neither covariate kind — so its fit call received neither keyword — yet
its predict call receives both, refuting "a covariate type is passed iff
the model declares it consumes it" and "exactly the same covariate set
that was routed to that model's fit call". -/
theorem predict_covariates_not_routed_per_model :
    c2Model.uses_past_covariates = false ∧
    c2Model.uses_future_covariates = false ∧
    (c2Ensemble.fit (.multi [[10, 20]]) (some 7) (some 8)).toOption.map
        (fun r => (r.2.phase1_fit_calls.map MemberFitCall.past_arg,
                   r.2.phase1_fit_calls.map MemberFitCall.future_arg,
                   r.2.predict_calls.map MemberPredictCall.past_arg,
                   r.2.predict_calls.map MemberPredictCall.future_arg))
      = some ([none], [none], [some (some 7)], [some (some 8)]) :=
  ⟨rfl, rfl, rfl⟩

/-- C2 (amended): during the calibration-prediction step every member
model receives the same predict call — in a global multi-series run
`predict(n=train_n_points, series=forecast_training, past_covariates=...,
future_covariates=...)` with both covariate keywords passed
unconditionally (the values handed to `fit`, regardless of the model's
covariate flags); in every other run (single-series, or a non-global
ensemble) the bare `predict(train_n_points)` with no series and no
covariate arguments. -/
theorem predict_call_arguments (self : RegressionEnsembleModel α π φ)
    (series : SeriesArg α) (past : Option π) (future : Option φ)
    (self' : RegressionEnsembleModel α π φ) (out : FitOutcome α π φ)
    (h : self.fit series past future = Except.ok (self', out)) :
    out.predict_calls = List.replicate self.models.length
      (if self.is_global_ensemble = true ∧ series.isSingle = false then
        { n := self.train_n_points
          series := some out.forecast_training
          past_arg := some past
          future_arg := some future }
       else
        { n := self.train_n_points, series := none
          past_arg := none, future_arg := none }) := by
  rcases (fit_ok_iff self series past future _).mp h with ⟨-, hr⟩
  have hout : out = (fitSuccess self series past future).2 := congrArg Prod.snd hr
  subst hout
  simp only [fitSuccess, List.map_const']
  have hlen : (List.zipWith MemberModel.fitOn self.models
      (self.models.map (routedFitCall self.is_global_ensemble
        (forecastTrainingOf self.train_n_points series)
        (forecastTrainingOf self.train_n_points series) past future))).length
      = self.models.length := by
    simp [List.length_zipWith]
  rw [hlen]
  cases hg : self.is_global_ensemble <;> cases hs : series.isSingle <;>
    simp [getPredictionCall, hg, hs]

/-- Member model used in the shared witness runs: consumes past
covariates only, resettable. -/
def exModelA : MemberModel Int Nat Nat :=
  { uses_past_covariates := true
    uses_future_covariates := false
    has_untrained_model := true
    trained_on := none }

/-- Member model used in the shared witness runs: consumes future
covariates only, not resettable. -/
def exModelB : MemberModel Int Nat Nat :=
  { uses_past_covariates := false
    uses_future_covariates := true
    has_untrained_model := false
    trained_on := none }

/-- A global two-model ensemble with calibration horizon 2, for the
witness runs. -/
def exEnsemble : RegressionEnsembleModel Int Nat Nat :=
  { models := [exModelA, exModelB]
    regression_model := defaultRegressionModel
    train_n_points := 2
    is_global_ensemble := true }

/-- Single-series witness input of length 5. -/
def exSeries : SeriesArg Int := .single [1, 2, 3, 4, 5]

/-- Multi-series witness input. -/
def ex2Series : SeriesArg Int := .multi [[1, 2, 3], [4, 5, 6]]

/-- Outcome of the single-series witness run. -/
def exFit : RegressionEnsembleModel Int Nat Nat × FitOutcome Int Nat Nat :=
  fitSuccess exEnsemble exSeries (some 7) (some 8)

/-- Outcome of the multi-series witness run. -/
def ex2Fit : RegressionEnsembleModel Int Nat Nat × FitOutcome Int Nat Nat :=
  fitSuccess exEnsemble ex2Series (some 7) (some 8)

/-- Witness for C2's amended theorem on the global multi-series run. -/
theorem predict_call_arguments_witness :
    exEnsemble.fit ex2Series (some 7) (some 8) = Except.ok (ex2Fit.1, ex2Fit.2) ∧
    ex2Fit.2.predict_calls = List.replicate exEnsemble.models.length
      (if exEnsemble.is_global_ensemble = true ∧ ex2Series.isSingle = false then
        { n := exEnsemble.train_n_points
          series := some ex2Fit.2.forecast_training
          past_arg := some (some 7)
          future_arg := some (some 8) }
       else
        { n := exEnsemble.train_n_points, series := none
          past_arg := none, future_arg := none }) :=
  ⟨rfl,
   predict_call_arguments exEnsemble ex2Series (some 7) (some 8) ex2Fit.1 ex2Fit.2
     rfl⟩

/-- C6: in phase 1 every member model is fitted on the truncated
forecast-training prefix; in a global ensemble the `past_covariates`
keyword is forwarded to a model's fit call iff that model's
`uses_past_covariates` flag is set, and `future_covariates` iff
`uses_future_covariates` — per model, not uniformly; in a non-global
ensemble the fit call carries the truncated series and no covariate
keyword at all. -/
theorem phase1_fit_covariate_routing (self : RegressionEnsembleModel α π φ)
    (series : SeriesArg α) (past : Option π) (future : Option φ)
    (self' : RegressionEnsembleModel α π φ) (out : FitOutcome α π φ)
    (h : self.fit series past future = Except.ok (self', out)) :
    out.forecast_training = forecastTrainingOf self.train_n_points series ∧
    out.phase1_fit_calls = self.models.map (fun m =>
      { series := out.forecast_training
        past_arg :=
          if self.is_global_ensemble = true ∧ m.uses_past_covariates = true
          then some past else none
        future_arg :=
          if self.is_global_ensemble = true ∧ m.uses_future_covariates = true
          then some future else none }) := by
  rcases (fit_ok_iff self series past future _).mp h with ⟨-, hr⟩
  have hout : out = (fitSuccess self series past future).2 := congrArg Prod.snd hr
  subst hout
  refine ⟨rfl, ?_⟩
  simp only [fitSuccess]
  apply List.map_congr_left
  intro m _
  cases hg : self.is_global_ensemble <;>
    cases hp : m.uses_past_covariates <;>
    cases hf : m.uses_future_covariates <;>
    simp [routedFitCall, hg, hp, hf]

/-- Witness for C6 on the single-series run of the two-model global
ensemble. -/
theorem phase1_fit_covariate_routing_witness :
    exEnsemble.fit exSeries (some 7) (some 8) = Except.ok (exFit.1, exFit.2) ∧
    (exFit.2.forecast_training = forecastTrainingOf exEnsemble.train_n_points exSeries ∧
     exFit.2.phase1_fit_calls = exEnsemble.models.map (fun m =>
       { series := exFit.2.forecast_training
         past_arg :=
           if exEnsemble.is_global_ensemble = true ∧ m.uses_past_covariates = true
           then some (some 7) else none
         future_arg :=
           if exEnsemble.is_global_ensemble = true ∧ m.uses_future_covariates = true
           then some (some 8) else none })) :=
  ⟨rfl,
   phase1_fit_covariate_routing exEnsemble exSeries (some 7) (some 8) exFit.1 exFit.2
     rfl⟩

/-- C7: in phase 2 every member model exposing `untrained_model` is
replaced by a fresh untrained copy (the others are kept as-is), and every
(possibly reset) member model is then refitted on the full, untruncated
series with the same per-model / global-vs-local covariate routing as in
phase 1; consequently, after a successful `fit` every member model's
training state records the full input series, not the truncated prefix. -/
theorem phase2_reset_and_full_refit (self : RegressionEnsembleModel α π φ)
    (series : SeriesArg α) (past : Option π) (future : Option φ)
    (self' : RegressionEnsembleModel α π φ) (out : FitOutcome α π φ)
    (h : self.fit series past future = Except.ok (self', out)) :
    out.models_reset = out.models_phase1.map (fun m =>
      if m.has_untrained_model = true then m.untrained_model else m) ∧
    out.phase2_fit_calls = self.models.map (fun m =>
      { series := series
        past_arg :=
          if self.is_global_ensemble = true ∧ m.uses_past_covariates = true
          then some past else none
        future_arg :=
          if self.is_global_ensemble = true ∧ m.uses_future_covariates = true
          then some future else none }) ∧
    out.models_after = List.zipWith MemberModel.fitOn out.models_reset out.phase2_fit_calls ∧
    self'.models = out.models_after ∧
    ∀ m ∈ out.models_after, ∃ c, m.trained_on = some c ∧ c.series = series := by
  rcases (fit_ok_iff self series past future _).mp h with ⟨-, hr⟩
  have hout : out = (fitSuccess self series past future).2 := congrArg Prod.snd hr
  have hself : self' = (fitSuccess self series past future).1 := congrArg Prod.fst hr
  subst hout; subst hself
  refine ⟨rfl, ?_, rfl, rfl, ?_⟩
  · simp only [fitSuccess, List.zipWith_map_right, List.zipWith_map_left,
      List.zipWith_same, List.map_map]
    apply List.map_congr_left
    intro m _
    cases hg : self.is_global_ensemble <;>
      cases hp : m.uses_past_covariates <;>
      cases hf : m.uses_future_covariates <;>
      cases hu : m.has_untrained_model <;>
        simp [routedFitCall, MemberModel.fitOn, MemberModel.untrained_model,
          Function.comp, hg, hp, hf, hu]
  · intro m hm
    simp only [fitSuccess, List.zipWith_map_right, List.zipWith_map_left,
      List.zipWith_same, List.map_map] at hm
    rcases List.mem_map.mp hm with ⟨m0, -, rfl⟩
    refine ⟨_, rfl, ?_⟩
    cases hg : self.is_global_ensemble <;>
      simp [routedFitCall, MemberModel.fitOn, Function.comp, hg]

/-- Witness for C7 on the single-series run: after a successful fit on the
length-5 series at horizon 2, both member models are trained on the full
series. -/
theorem phase2_reset_and_full_refit_witness :
    exEnsemble.fit exSeries (some 7) (some 8) = Except.ok (exFit.1, exFit.2) ∧
    (exFit.2.models_reset = exFit.2.models_phase1.map (fun m =>
       if m.has_untrained_model = true then m.untrained_model else m) ∧
     exFit.2.phase2_fit_calls = exEnsemble.models.map (fun m =>
       { series := exSeries
         past_arg :=
           if exEnsemble.is_global_ensemble = true ∧ m.uses_past_covariates = true
           then some (some 7) else none
         future_arg :=
           if exEnsemble.is_global_ensemble = true ∧ m.uses_future_covariates = true
           then some (some 8) else none }) ∧
     exFit.2.models_after
        = List.zipWith MemberModel.fitOn exFit.2.models_reset exFit.2.phase2_fit_calls ∧
     exFit.1.models = exFit.2.models_after ∧
     ∀ m ∈ exFit.2.models_after, ∃ c, m.trained_on = some c ∧ c.series = exSeries) :=
  ⟨rfl,
   phase2_reset_and_full_refit exEnsemble exSeries (some 7) (some 8) exFit.1 exFit.2
     rfl⟩

/-- C5: assuming the regression adapter's `predict(n, ...)` returns a
series of length `n`, the single-series `ensemble` branch returns one
forecast whose length equals the length of the stacked-prediction input,
and the multi-series branch over `N` (series, prediction) pairs returns
`N` forecasts, in input order, each as long as its corresponding
prediction. -/
theorem ensemble_forecast_lengths {β γ : Type}
    (regPredict : Nat → Option (List α) → List β → List γ)
    (hlen : ∀ (n : Nat) (s : Option (List α)) (f : List β), (regPredict n s f).length = n)
    (p : List β) (predictions : List (List β)) (series : List (List α))
    (hN : series.length = predictions.length) :
    (ensembleSingle regPredict p).length = p.length ∧
    (ensembleMulti regPredict predictions series).length = predictions.length ∧
    ∀ i : Nat,
      Option.map List.length (ensembleMulti regPredict predictions series)[i]?
        = Option.map List.length predictions[i]? := by
  refine ⟨hlen _ _ _, ?_, ?_⟩
  · simp [ensembleMulti, hN]
  · intro i
    by_cases hi : i < predictions.length
    · have hi' : i < series.length := by omega
      simp only [ensembleMulti, List.getElem?_map, List.zip_eq_zipWith,
        List.getElem?_zipWith, List.getElem?_eq_getElem hi, List.getElem?_eq_getElem hi']
      simp [hlen]
    · have hle : predictions.length ≤ i := by omega
      have hle' : series.length ≤ i := by omega
      simp only [ensembleMulti, List.getElem?_map, List.zip_eq_zipWith,
        List.getElem?_zipWith, List.getElem?_eq_none hle, List.getElem?_eq_none hle']
      rfl

/-- A regression-adapter predict stub satisfying the length contract, for
the C5 witness. -/
def constRegPredict : Nat → Option (List Nat) → List Nat → List Nat :=
  fun n _ _ => List.replicate n 0

/-- Witness for C5 with a length-respecting adapter stub and concrete
inputs. -/
theorem ensemble_forecast_lengths_witness :
    (∀ (n : Nat) (s : Option (List Nat)) (f : List Nat),
        (constRegPredict n s f).length = n) ∧
    ((ensembleSingle constRegPredict [5, 6]).length = ([5, 6] : List Nat).length ∧
     (ensembleMulti constRegPredict [[1], [2, 3]] [[9], [8]]).length
        = ([[1], [2, 3]] : List (List Nat)).length ∧
     ∀ i : Nat,
       Option.map List.length (ensembleMulti constRegPredict [[1], [2, 3]] [[9], [8]])[i]?
         = Option.map List.length ([[1], [2, 3]] : List (List Nat))[i]?) :=
  ⟨fun n s f => by simp [constRegPredict],
   ensemble_forecast_lengths constRegPredict (fun n s f => by simp [constRegPredict])
     [5, 6] [[1], [2, 3]] [[9], [8]] rfl⟩

/-- C10: the multi-series `ensemble` branch performs no length validation:
it maps over `zip(series, predictions)`, so the number of returned
forecasts is the length of the shorter sequence, excess entries of the
longer sequence are silently ignored, and no error is raised (entry `i`
exists iff both sequences have an entry `i`). -/
theorem ensemble_multi_zip_truncates {β γ : Type}
    (regPredict : Nat → Option (List α) → List β → List γ)
    (predictions : List (List β)) (series : List (List α)) :
    (ensembleMulti regPredict predictions series).length
        = min series.length predictions.length ∧
    ∀ i : Nat,
      (ensembleMulti regPredict predictions series)[i]?
        = match series[i]?, predictions[i]? with
          | some s, some p => some (regPredict p.length (some s) p)
          | _, _ => none := by
  constructor
  · simp [ensembleMulti]
  · intro i
    simp only [ensembleMulti, List.getElem?_map, List.zip_eq_zipWith,
      List.getElem?_zipWith]
    cases hs : series[i]? <;> cases hp : predictions[i]? <;> rfl

end DartsRegressionEnsemble
